import Mathlib

/-!
Shallow embedding of the `property` repository (src/include/property.h and the
owner types of src/tests/main.cc).

The header declares three empty access-policy tag classes
(`private_get_set`, `public_get`, `public_get_set`), an internal value holder
`impl::data_storage<T>`, a concept `impl::is_access_policy`, and the generic
wrapper `util::property<TOwner, TValue, TAccessPolicy>` which privately
inherits `data_storage<TValue>`, befriends `TOwner`, and exposes conversion
operators (read) and assignment operators (write) gated by `requires` clauses
over the policy.

The embedding models the stored value and the value-semantics operations as
pure functions, and models the compile-time visibility surface as explicit
data: each C++ accessor declaration becomes a record carrying its section
(public or not), its const-qualification, the constness of its returned
reference, and its `requires` clause as a boolean function of the policy.
-/

namespace util

/-- The three access-policy tag classes of property.h (lines 23-36). -/
inductive AccessPolicy where
  | private_get_set
  | public_get
  | public_get_set
deriving DecidableEq

/-- The default template argument of `TAccessPolicy` (line 143). -/
def default_access_policy : AccessPolicy := AccessPolicy.private_get_set

/-- A type tag occupying the `TAccessPolicy` template-argument position:
either one of the three policy classes, or any other type (named by a
string). This is the domain over which `impl::is_access_policy` judges. -/
inductive TypeTag where
  | policy_tag (p : AccessPolicy)
  | other_type (name : String)
deriving DecidableEq

namespace impl

/-- The concept `impl::is_access_policy` (lines 90-95): the disjunction of the
three `std::is_same_v` checks against the policy tag classes. -/
def is_access_policy (t : TypeTag) : Bool :=
     decide (t = TypeTag.policy_tag AccessPolicy.private_get_set)
  || decide (t = TypeTag.policy_tag AccessPolicy.public_get)
  || decide (t = TypeTag.policy_tag AccessPolicy.public_get_set)

/-- `impl::data_storage<T>` (lines 53-83): holds exactly the member
`T m_value`. -/
structure data_storage (T : Type) where
  m_value : T

/-- `data_storage::value()` (lines 68-76): both overloads return a reference
to `m_value`; the observable value is `m_value`. -/
def data_storage.value {T : Type} (s : data_storage T) : T := s.m_value

end impl

/-- The `requires(impl::is_access_policy<TAccessPolicy>)` clause on
`util::property` (line 144). -/
def property_instantiation_ok (t : TypeTag) : Bool := impl.is_access_policy t

/-- `property::is_public_get` (lines 148-149). -/
def is_public_get (p : AccessPolicy) : Bool :=
  decide (p = AccessPolicy.public_get) || decide (p = AccessPolicy.public_get_set)

/-- `property::is_public_set` (line 150). -/
def is_public_set (p : AccessPolicy) : Bool :=
  decide (p = AccessPolicy.public_get_set)

/-- `util::property<TOwner, TValue, TAccessPolicy>` (lines 143-193): privately
inherits `impl::data_storage<TValue>`, so its state is exactly the stored
value. The owner type parameter only serves the `friend TOwner` grant, which
the visibility model below carries as a `fromOwner` flag. -/
structure property (TValue : Type) (policy : AccessPolicy) where
  storage : impl.data_storage TValue

/-- The converting constructor `property(TValue value = TValue {})`
(lines 153-156): forwards the supplied value into the storage. -/
def property.make (TValue : Type) (policy : AccessPolicy) (value : TValue) :
    property TValue policy :=
  ⟨⟨value⟩⟩

/-- Construction with the argument omitted: the default argument `TValue {}`
default-constructs the value. -/
def property.makeDefault (TValue : Type) [Inhabited TValue]
    (policy : AccessPolicy) : property TValue policy :=
  property.make TValue policy (default : TValue)

/-- The observable result of the conversion operators (lines 165-180): every
one of the three overloads returns `this->value()`. -/
def property.read {TValue : Type} {policy : AccessPolicy}
    (p : property TValue policy) : TValue :=
  p.storage.value

/-- `property::operator=(const TValue&)` (lines 183-192): both overloads
execute `return this->value() = new_value;`, i.e. they overwrite the stored
value with a copy of the argument and return a reference to the updated
stored value. The model returns the updated property together with the value
the returned reference denotes. -/
def property.write {TValue : Type} {policy : AccessPolicy}
    (_p : property TValue policy) (new_value : TValue) :
    property TValue policy × TValue :=
  (⟨⟨new_value⟩⟩, new_value)

/-- The defaulted copy constructor `property(const property&)` (line 160):
memberwise copy of the storage. -/
def property.copyCtor {TValue : Type} {policy : AccessPolicy}
    (src : property TValue policy) : property TValue policy :=
  ⟨⟨src.storage.m_value⟩⟩

/-- The defaulted move constructor `property(property&&)` (line 159): the
moved-to object holds the value moved out of the source. -/
def property.moveCtor {TValue : Type} {policy : AccessPolicy}
    (src : property TValue policy) : property TValue policy :=
  ⟨⟨src.storage.m_value⟩⟩

/-- The defaulted copy assignment `property& operator=(const property&)`
(line 162): the target takes a copy of the source's stored value. -/
def property.copyAssign {TValue : Type} {policy : AccessPolicy}
    (_target : property TValue policy) (src : property TValue policy) :
    property TValue policy :=
  ⟨⟨src.storage.m_value⟩⟩

/-- The defaulted move assignment `property& operator=(property&&)`
(line 161): the target takes the value moved out of the source. -/
def property.moveAssign {TValue : Type} {policy : AccessPolicy}
    (_target : property TValue policy) (src : property TValue policy) :
    property TValue policy :=
  ⟨⟨src.storage.m_value⟩⟩

/-- One member accessor declaration of a class in property.h: whether it is a
read path (conversion operator) or a write path (assignment operator), whether
it sits in a `public:` section, whether the member function is
const-qualified, whether it returns a `const TValue&` (read-only reference)
rather than `TValue&`, and its `requires` clause as a function of the
policy. -/
structure AccessorDecl where
  isRead : Bool
  inPublicSection : Bool
  constQualified : Bool
  returnsConstRef : Bool
  enabled : AccessPolicy → Bool

/-- The five accessor declarations of `util::property` (lines 165-192), in
source order:
1. `public: operator TValue&()` requires `is_public_get && is_public_set`;
2. `public: operator const TValue&()` requires
   `is_public_get && !is_public_set`;
3. `private: operator TValue&()` requires `!is_public_get`;
4. `public: TValue& operator=(const TValue&)` requires `is_public_set`;
5. `private: TValue& operator=(const TValue&)` requires `!is_public_set`.
None of the five is const-qualified. -/
def propertyAccessors : List AccessorDecl :=
  [ ⟨true, true, false, false, fun p => is_public_get p && is_public_set p⟩
  , ⟨true, true, false, true, fun p => is_public_get p && !is_public_set p⟩
  , ⟨true, false, false, false, fun p => !is_public_get p⟩
  , ⟨false, true, false, false, fun p => is_public_set p⟩
  , ⟨false, false, false, false, fun p => !is_public_set p⟩ ]

/-- The two `value()` overloads of `impl::data_storage` (lines 68-76): both
protected (not in a `public:` section, reachable from `property` and, through
the friend grant, from the owner), the first returning `T&`, the second
const-qualified returning `const T&`. Their availability does not depend on
the policy. -/
def dataStorageAccessors : List AccessorDecl :=
  [ ⟨true, false, false, false, fun _ => true⟩
  , ⟨true, false, true, true, fun _ => true⟩ ]

/-- Whether some read accessor of `property` is invocable by a caller: a
member in a `public:` section is reachable by anyone; every member is
reachable from the owner's implementation (`friend TOwner`, line 147); in
either case the `requires` clause must hold for the policy. -/
def readable (policy : AccessPolicy) (fromOwner : Bool) : Bool :=
  propertyAccessors.any fun a =>
    a.isRead && (a.inPublicSection || fromOwner) && a.enabled policy

/-- Whether some write accessor of `property` is invocable by a caller, under
the same reachability rules as `readable`. -/
def writable (policy : AccessPolicy) (fromOwner : Bool) : Bool :=
  propertyAccessors.any fun a =>
    !a.isRead && (a.inPublicSection || fromOwner) && a.enabled policy

/-- The owner aggregate of src/tests/main.cc (lines 15-37): a struct whose
only member is a property of `int`, instantiated at each of the three
policies. -/
structure dummy_object (policy : AccessPolicy) where
  prop : property Int policy

/-- Copy-constructing an owner (`auto copy { obj };`, main.cc line 75):
memberwise copy, which copy-constructs the property. -/
def dummy_object.copy {policy : AccessPolicy} (o : dummy_object policy) :
    dummy_object policy :=
  ⟨o.prop.copyCtor⟩

/-- Move-constructing an owner (`auto moved { std::move(obj) };`, main.cc
line 92): memberwise move, which move-constructs the property. -/
def dummy_object.moveFrom {policy : AccessPolicy} (o : dummy_object policy) :
    dummy_object policy :=
  ⟨o.prop.moveCtor⟩

/-- A world of two distinct owner objects, as in the copy and assignment
tests of main.cc. Mutations through one owner's property are modelled as
state transformers on this world, so frame conditions on the other owner are
expressible. -/
structure TwoOwners (policy : AccessPolicy) where
  objA : dummy_object policy
  objB : dummy_object policy

/-- Writing the value `w` through objA's property: only objA's storage is
assigned to. -/
def TwoOwners.writeA {policy : AccessPolicy} (s : TwoOwners policy)
    (w : Int) : TwoOwners policy :=
  ⟨⟨(s.objA.prop.write w).1⟩, s.objB⟩

/-- Writing the value `w` through objB's property: only objB's storage is
assigned to. -/
def TwoOwners.writeB {policy : AccessPolicy} (s : TwoOwners policy)
    (w : Int) : TwoOwners policy :=
  ⟨s.objA, ⟨(s.objB.prop.write w).1⟩⟩

/-- `objB.property = objA.property` (main.cc line 84): the defaulted copy
assignment reads objA's property through a `const property&` parameter and
assigns objB's storage. -/
def TwoOwners.assignBfromA {policy : AccessPolicy} (s : TwoOwners policy) :
    TwoOwners policy :=
  ⟨s.objA, ⟨s.objB.prop.copyAssign s.objA.prop⟩⟩

/-- A call `p = v` of `property::operator=(const TValue&)`: the state is the
property together with the caller's argument object; the parameter is taken
by `const TValue&`, so running the call updates the property and leaves the
argument as is. -/
structure WriteCall (policy : AccessPolicy) where
  prop : property Int policy
  arg : Int

/-- Running the write call: `this->value() = new_value` copies the argument
into the storage. -/
def WriteCall.run {policy : AccessPolicy} (s : WriteCall policy) :
    WriteCall policy :=
  ⟨(s.prop.write s.arg).1, s.arg⟩

end util

namespace util

/-- Claim C1: the externally visible accessors of a property are exactly those
the policy grants: with `public_get_set` both the read accessor and the write
accessor are usable from outside the owner; with `public_get` only the read
accessor is (an external write is rejected); with `private_get_set` — the
default policy — neither accessor is usable from outside the owner. -/
theorem C1_policy_visibility :
    readable AccessPolicy.public_get_set false = true ∧
    writable AccessPolicy.public_get_set false = true ∧
    readable AccessPolicy.public_get false = true ∧
    writable AccessPolicy.public_get false = false ∧
    readable AccessPolicy.private_get_set false = false ∧
    writable AccessPolicy.private_get_set false = false ∧
    default_access_policy = AccessPolicy.private_get_set := by
  decide

/-- Claim C2: for every value `v` and every property under a policy whose
read and write accessors are both invocable by the caller, assigning `v`
through the write accessor and then reading through the read accessor yields
exactly `v`. -/
theorem C2_round_trip (TValue : Type) (policy : AccessPolicy)
    (fromOwner : Bool) (p : property TValue policy) (v : TValue)
    (hr : readable policy fromOwner = true)
    (hw : writable policy fromOwner = true) :
    ((p.write v).1).read = v :=
  rfl

/-- Witness for C2 at a concrete input: the public_get_set policy permits
both accessors to an external caller, and setting 12 then reading returns
12 (the value_test scenario of main.cc). -/
theorem C2_round_trip_witness :
    (((property.make Int AccessPolicy.public_get_set 0).write 12).1).read
      = 12 :=
  C2_round_trip Int AccessPolicy.public_get_set false
    (property.make Int AccessPolicy.public_get_set 0) 12
    (by decide) (by decide)

/-- Claim C3 as stated is false: `public_get` exposes the read accessor, yet
no read accessor of `property` that is public and enabled for `public_get` is
const-qualified (none of the five member declarations is), so none can be
invoked on a const property. -/
theorem C3_counterexample :
    is_public_get AccessPolicy.public_get = true ∧
    (propertyAccessors.any fun a =>
        a.isRead && a.inPublicSection && a.enabled AccessPolicy.public_get
          && a.constQualified && a.returnsConstRef) = false := by
  decide

/-- Claim C3 amended: for every policy exposing the read accessor, an
externally visible read path exists; the externally visible read path returns
a read-only (`const TValue&`) reference exactly for the `public_get` policy;
no read path of `property` is const-qualified (so none is invocable on a
const property); the only const-qualified read path returning a read-only
reference is `data_storage::value() const`, which is not in a public section
and hence not externally visible. -/
theorem C3_const_read_path (policy : AccessPolicy)
    (h : is_public_get policy = true) :
    readable policy false = true ∧
    ((propertyAccessors.any fun a =>
        a.isRead && a.inPublicSection && a.enabled policy
          && a.returnsConstRef)
      = decide (policy = AccessPolicy.public_get)) ∧
    (propertyAccessors.any fun a => a.isRead && a.constQualified) = false ∧
    (dataStorageAccessors.any fun a =>
        a.isRead && a.constQualified && a.returnsConstRef
          && !a.inPublicSection) = true := by
  cases policy <;> revert h <;> decide

/-- Witness for C3's amended statement at the policy `public_get`. -/
theorem C3_const_read_path_witness :
    readable AccessPolicy.public_get false = true ∧
    ((propertyAccessors.any fun a =>
        a.isRead && a.inPublicSection && a.enabled AccessPolicy.public_get
          && a.returnsConstRef)
      = decide (AccessPolicy.public_get = AccessPolicy.public_get)) ∧
    (propertyAccessors.any fun a => a.isRead && a.constQualified) = false ∧
    (dataStorageAccessors.any fun a =>
        a.isRead && a.constQualified && a.returnsConstRef
          && !a.inPublicSection) = true :=
  C3_const_read_path AccessPolicy.public_get (by decide)

/-- Claim C4: constructing a property with an explicit value `v` stores `v`
(a subsequent read yields `v`), and constructing with the value omitted
stores a default-constructed value of the value type. -/
theorem C4_construction (TValue : Type) [Inhabited TValue]
    (policy : AccessPolicy) (v : TValue) :
    (property.make TValue policy v).read = v ∧
    (property.makeDefault TValue policy).read = (default : TValue) :=
  ⟨rfl, rfl⟩

/-- Claim C5: the write accessor returns a reference to the updated stored
value: the returned reference reads equal to the assigned value, it denotes
the same value a subsequent read of the property yields, and assigning
through the returned reference into another property equals assigning the
original value directly (chained assignment mirrors ordinary assignment). -/
theorem C5_write_returns_updated (TValue : Type) (policy : AccessPolicy)
    (p q : property TValue policy) (v : TValue) :
    (p.write v).2 = v ∧
    (p.write v).2 = ((p.write v).1).read ∧
    ((q.write ((p.write v).2)).1).read = ((q.write v).1).read :=
  ⟨rfl, rfl, rfl⟩

/-- Claim C6: copy-constructing an owner yields a new owner whose property
reads the same value, and afterwards the two properties are independent:
writing `w` through the copy changes the copy's value to `w` and leaves the
original reading its previous value, and writing through the original leaves
the copy unchanged. -/
theorem C6_copy_independent (policy : AccessPolicy) (o : dummy_object policy)
    (w : Int) :
    (dummy_object.copy o).prop.read = o.prop.read ∧
    (TwoOwners.writeB ⟨o, dummy_object.copy o⟩ w).objB.prop.read = w ∧
    (TwoOwners.writeB ⟨o, dummy_object.copy o⟩ w).objA.prop.read
      = o.prop.read ∧
    (TwoOwners.writeA ⟨o, dummy_object.copy o⟩ w).objB.prop.read
      = o.prop.read :=
  ⟨rfl, rfl, rfl, rfl⟩

/-- Claim C7: move-constructing a new owner from an owner whose property
holds a value yields a new owner whose property reads that same value (the
defaulted move constructor transfers the stored value). -/
theorem C7_move_preserves_value (policy : AccessPolicy)
    (o : dummy_object policy) :
    (dummy_object.moveFrom o).prop.read = o.prop.read :=
  rfl

/-- Claim C8: assigning one owner's property to another's
(`objA.property = objB.property`, by the defaulted copy assignment or its
move variant) transfers the source's stored value into the target, observable
by a subsequent read of the target. -/
theorem C8_property_assignment (TValue : Type) (policy : AccessPolicy)
    (a b : property TValue policy) :
    (a.copyAssign b).read = b.read ∧
    (a.moveAssign b).read = b.read :=
  ⟨rfl, rfl⟩

/-- Claim C9: instantiating `property` with a policy-position type argument
is accepted exactly when the argument is one of the three recognized policy
tag classes; in particular a non-policy type such as `int` is rejected. -/
theorem C9_policy_tag_rejection :
    (∀ t : TypeTag, property_instantiation_ok t = true
      ↔ ∃ p : AccessPolicy, t = TypeTag.policy_tag p) ∧
    property_instantiation_ok (TypeTag.other_type "int") = false := by
  refine ⟨fun t => ⟨fun h => ?_, fun h => ?_⟩, by decide⟩
  · cases t with
    | policy_tag p => exact ⟨p, rfl⟩
    | other_type n =>
      simp only [property_instantiation_ok, impl.is_access_policy,
        Bool.or_eq_true, decide_eq_true_eq] at h
      rcases h with (h | h) | h <;> exact absurd h (by simp)
  · rcases h with ⟨p, rfl⟩
    cases p <;> decide

/-- Claim C10: writing never mutates its source: copy-assigning objA's
property into objB's leaves objA's owner exactly as it was while objB reads
objA's value, and running `p = v` leaves the caller's argument `v` unchanged
while the property reads `v` (the write stores a copy). -/
theorem C10_write_no_source_mutation (policy : AccessPolicy)
    (s : TwoOwners policy) (c : WriteCall policy) :
    (s.assignBfromA).objA = s.objA ∧
    (s.assignBfromA).objB.prop.read = s.objA.prop.read ∧
    (c.run).arg = c.arg ∧
    (c.run).prop.read = c.arg :=
  ⟨rfl, rfl, rfl, rfl⟩

end util
